import Mathlib

/-!
Verification development for the Ergomotion adjustable-bed integration
(`custom_components/ergomotion/core/device.py` and `core/client.py`).

The Python source is shallowly embedded below:

* bytes are `List Nat` (each element a byte value);
* the Python dicts `current_state` / `target_state` become an
  `Option StatusSnapshot` (the parser always writes every key at once,
  and `{}` is `none`) and an insertion-ordered association list;
* Python run-time exceptions (`AttributeError`, `TypeError`) are
  modelled with an explicit `Option String` error component, and the
  state mutated before the raise is kept, exactly as in Python;
* the asynchronous single-flight send logic of `Client` becomes an
  explicit step function over a small state record, with one event per
  cooperative scheduling step.
-/

namespace Ergomotion

/-- `MIN_STEP` from device.py: tolerance (native units) for continuous moves. -/
def MIN_STEP : Nat := 100

/-- `TIMER_OPTIONS` from device.py. -/
def TIMER_OPTIONS : List String := ["10", "20", "30"]

/-- `SCENE_OPTIONS` from device.py. -/
def SCENE_OPTIONS : List String :=
  ["flat", "snore", "memory1", "memory2", "memory3", "zerog"]

/-- The fixed command table `COMMANDS_NUS_6BYTE` of device.py, as the
lookup function corresponding to `dict.get`: known names map to their
6-byte payload, unknown names to `none`. -/
def COMMANDS_NUS_6BYTE : String → Option (List Nat)
  | "head_up" => some [0x04, 0x02, 0x00, 0x00, 0x00, 0x10]
  | "head_down" => some [0x04, 0x02, 0x00, 0x00, 0x00, 0x20]
  | "foot_up" => some [0x04, 0x02, 0x00, 0x00, 0x00, 0x04]
  | "foot_down" => some [0x04, 0x02, 0x00, 0x00, 0x00, 0x08]
  | "lumbar_up" => some [0x04, 0x02, 0x00, 0x00, 0x40, 0x00]
  | "lumbar_down" => some [0x04, 0x02, 0x00, 0x00, 0x80, 0x00]
  | "neck_up" => some [0x04, 0x02, 0x00, 0x00, 0x00, 0x01]
  | "neck_down" => some [0x04, 0x02, 0x00, 0x00, 0x00, 0x02]
  | "flat" => some [0x04, 0x02, 0x08, 0x00, 0x00, 0x00]
  | "zerog" => some [0x04, 0x02, 0x00, 0x00, 0x10, 0x00]
  | "snore" => some [0x04, 0x02, 0x00, 0x00, 0x80, 0x00]
  | "memory1" => some [0x04, 0x02, 0x00, 0x01, 0x00, 0x00]
  | "memory2" => some [0x04, 0x02, 0x00, 0x00, 0x20, 0x00]
  | "memory3" => some [0x04, 0x02, 0x00, 0x00, 0x40, 0x00]
  | "stop" => some [0x04, 0x02, 0x08, 0x00, 0x00, 0x00]
  | "head_massage" => some [0x04, 0x02, 0x00, 0x00, 0x08, 0x00]
  | "foot_massage" => some [0x04, 0x02, 0x00, 0x00, 0x04, 0x00]
  | "led_toggle" => some [0x04, 0x02, 0x00, 0x02, 0x00, 0x00]
  | "timer_cycle" => some [0x04, 0x02, 0x00, 0x00, 0x02, 0x00]
  | _ => none

/-- Payload sent by every `COMMANDS_NUS_6BYTE['stop']` site (the key is
always present, so Python indexing cannot fail). -/
def stopPayload : List Nat := (COMMANDS_NUS_6BYTE "stop").getD []

/-- Payload of `head_up`. -/
def headUpPayload : List Nat := (COMMANDS_NUS_6BYTE "head_up").getD []

/-- Payload of `head_down`. -/
def headDownPayload : List Nat := (COMMANDS_NUS_6BYTE "head_down").getD []

/-- Payload of `foot_up`. -/
def footUpPayload : List Nat := (COMMANDS_NUS_6BYTE "foot_up").getD []

/-- Payload of `foot_down`. -/
def footDownPayload : List Nat := (COMMANDS_NUS_6BYTE "foot_down").getD []

/-- Payload of `led_toggle`. -/
def ledTogglePayload : List Nat := (COMMANDS_NUS_6BYTE "led_toggle").getD []

/-- Payload of `timer_cycle`. -/
def timerCyclePayload : List Nat := (COMMANDS_NUS_6BYTE "timer_cycle").getD []

/-- A Python value as it occurs in `target_state` / `current_state`:
int, str, bool or `None`.  (`set_attribute` accepts exactly
`int | str | bool | None`.) -/
inductive Value where
  | int : Int → Value
  | str : String → Value
  | bool : Bool → Value
  | none : Value
deriving Repr, DecidableEq

/-- Numeric coercion used by Python arithmetic and comparisons:
ints are themselves, bools are 0/1, everything else is not a number
(so `current - target` raises `TypeError`). -/
def pyToInt : Value → Option Int
  | Value.int n => some n
  | Value.bool b => some (if b then 1 else 0)
  | _ => Option.none

/-- Python `==` on the values above (never raises): numbers compare by
numeric value (`True == 1`), strings by content, `None` only to `None`,
cross-kind comparisons are unequal. -/
def pyEq : Value → Value → Bool
  | Value.int a, Value.int b => a == b
  | Value.int a, Value.bool b => a == (if b then 1 else 0)
  | Value.bool a, Value.int b => (if a then (1 : Int) else 0) == b
  | Value.bool a, Value.bool b => a == b
  | Value.str a, Value.str b => a == b
  | Value.none, Value.none => true
  | _, _ => false

/-- Python truthiness of the values above. -/
def pyTruthy : Value → Bool
  | Value.int n => n != 0
  | Value.bool b => b
  | Value.str s => s != ""
  | Value.none => false

/-- The normalized device-state snapshot written wholesale by
`Device.parse_data` (the keys of the `self.current_state` dict). -/
structure StatusSnapshot where
  head_position : Nat
  foot_position : Nat
  head_move : Bool
  foot_move : Bool
  head_massage : Nat
  foot_massage : Nat
  timer_target : Option String
  timer_remain : Nat
  led : Bool
  scene : Bool
deriving Repr, DecidableEq

/-- `int.from_bytes(slice, "little")` for a slice of at most two bytes
(the source only ever converts `[i:i+2]` slices). -/
def leU16 : List Nat → Nat
  | [] => 0
  | [a] => a
  | a :: b :: _ => a + 256 * b

/-- Body of `Device.parse_data` (device.py lines 129-182): builds the
snapshot dict from the frame `data` and its two slices `data1`, `data2`.

The massage fields are `int(data1[4] / 6 * 100)` in the source, a float
computation; for byte inputs `0 ≤ x ≤ 255` the exact value `x * 100 / 6`
has fractional part `0`, `1/3` or `2/3`, far outside double rounding
error, so the float truncation equals the natural-number division
`x * 100 / 6` used here. -/
def parseSnapshot (data data1 data2 : List Nat) : StatusSnapshot :=
  let head_position := leU16 (data2.take 2)
  let foot_position := leU16 ((data2.drop 2).take 2)
  let remain := leU16 (data1.take 2)
  let move := if 4 < data2.length ∧ data.getD 0 0 ≠ 0xF1
    then (data2.getD 4 0) &&& 0xF else 0xF
  let timer := if 5 < data2.length then data2.getD 5 0 else 0xFF
  let head_pos := if head_position = 0xFFFF then 0 else head_position
  let foot_pos := if foot_position = 0xFFFF then 0 else foot_position
  let head_mas := if 4 < data1.length then data1.getD 4 0 * 100 / 6 else 0
  let foot_mas := if 5 < data1.length then data1.getD 5 0 * 100 / 6 else 0
  { head_position := head_pos
    foot_position := foot_pos
    head_move := decide (move ≠ 0xF ∧ 0 < move &&& 1)
    foot_move := decide (move ≠ 0xF ∧ 0 < move &&& 2)
    head_massage := head_mas
    foot_massage := foot_mas
    timer_target :=
      if timer ≠ 0xFF ∧ 0 < timer ∧ timer ≤ TIMER_OPTIONS.length
      then TIMER_OPTIONS.get? (timer - 1) else Option.none
    timer_remain := remain
    led := if 4 < data2.length then decide (0 < data2.getD 4 0 &&& 0x40) else false
    scene := decide (MIN_STEP < head_pos ∨ MIN_STEP < foot_pos
      ∨ 0 < head_mas ∨ 0 < foot_mas) }

/-- The `data1` slice chosen in `Device.on_data`: `data[3:8]` for header
`0xA5`, `data[3:]` for the other headers. -/
def frameData1 (data : List Nat) : List Nat :=
  if data.getD 0 0 = 0xA5 then (data.drop 3).take 5 else data.drop 3

/-- The `data2` slice chosen in `Device.on_data`: always `data[8:]`. -/
def frameData2 (data : List Nat) : List Nat := data.drop 8

/-- Frame acceptance rule of `Device.on_data` (device.py lines 102-117):
non-empty, at least 16 bytes, and header byte with matching length
(`0xED`→16, `0xF0`→19, `0xF1`→20, `0xA5`→ at least 16). -/
def frameAccepted (data : List Nat) : Bool :=
  decide (data ≠ [] ∧ 16 ≤ data.length) &&
    (decide (data.getD 0 0 = 0xED ∧ data.length = 16)
      || decide (data.getD 0 0 = 0xF0 ∧ data.length = 19)
      || decide (data.getD 0 0 = 0xF1 ∧ data.length = 20)
      || decide (data.getD 0 0 = 0xA5 ∧ 16 ≤ data.length))

/-- Snapshot decoded from an accepted frame: `parse_data` applied to the
slices that `on_data` passes for the frame's header. -/
def snapshotOf (data : List Nat) : StatusSnapshot :=
  parseSnapshot data (frameData1 data) (frameData2 data)

/-- The movement-flag expression as a standalone function of the frame
(`data2[4] & 0xF` when `data2` has at least 5 bytes and the header is
not `0xF1`, else `0xF`). -/
def moveFlag (data : List Nat) : Nat :=
  if 4 < (frameData2 data).length ∧ data.getD 0 0 ≠ 0xF1
  then (frameData2 data).getD 4 0 &&& 0xF else 0xF

/-- Python `str.endswith(suffix)`, computed over the character lists so
that it evaluates by kernel reduction. -/
def strEndsWith (s suff : String) : Bool :=
  s.data.reverse.take suff.data.length == suff.data.reverse

/-- `current_state.get(attr)` on the snapshot dict (`None` when the
snapshot is still the empty init dict, or for an unknown key). -/
def snapGet : Option StatusSnapshot → String → Value
  | Option.none, _ => Value.none
  | some s, a =>
    if a = "head_position" then Value.int s.head_position
    else if a = "foot_position" then Value.int s.foot_position
    else if a = "head_move" then Value.bool s.head_move
    else if a = "foot_move" then Value.bool s.foot_move
    else if a = "head_massage" then Value.int s.head_massage
    else if a = "foot_massage" then Value.int s.foot_massage
    else if a = "timer_target" then
      match s.timer_target with
      | some t => Value.str t
      | Option.none => Value.none
    else if a = "timer_remain" then Value.int s.timer_remain
    else if a = "led" then Value.bool s.led
    else if a = "scene" then Value.bool s.scene
    else Value.none

/-- `target_state.pop(attr)`: drop the (unique) entry with that key. -/
def popKey (ts : List (String × Value)) (k : String) : List (String × Value) :=
  ts.filter (fun p => !(p.1 == k))

/-- `target_state[name] = value` on a Python dict: replace in place if
the key exists (iteration position preserved), append otherwise. -/
def setKey (ts : List (String × Value)) (k : String) (v : Value) :
    List (String × Value) :=
  if ts.any (fun p => p.1 == k) then
    ts.map (fun p => if p.1 == k then (k, v) else p)
  else ts ++ [(k, v)]

/-- Result of scanning the pending entries (the `for` loop of
`Device.send_command`): the `command_to_send` selected by a `break` (if
any), the live `target_state` after the pops, the `client.send` calls
already performed inside the loop, and a Python exception if one was
raised. -/
structure LoopResult where
  cmd : Option (List Nat)
  target : List (String × Value)
  sends : List (List Nat)
  err : Option String
deriving Repr, DecidableEq

/-- Result of a whole `Device.send_command` call: the `client.send`
calls in order, the final `target_state`, and a raised exception if
any. -/
structure SendResult where
  sends : List (List Nat)
  target : List (String × Value)
  err : Option String
deriving Repr, DecidableEq

/-- `TypeError` raised by `abs(current - target)` when `current` (or the
target) is not a number — e.g. `current_state.get(attr)` returned
`None`. -/
def errTypeSub : String := "TypeError: unsupported operand types for sub"

/-- The `for attr, target in list(self.target_state.items())` loop of
`Device.send_command` (device.py lines 245-304).  The loop iterates over
a snapshot of the entries; `entries` is the part of that snapshot not
yet visited, `ts` the live dict, `ems` the sends already performed.
Each branch mirrors the source:

* `*_position`: `abs(current - target) < MIN_STEP` sends `stop`, pops
  and continues; otherwise `head_position`/`foot_position` select the
  directional command and break (no pop); any other `*_position` name
  gets `key = None` and simply continues;
* `head_massage`/`foot_massage`: `target == 0` pops silently, otherwise
  the attribute's own payload is selected, popped and broken on;
* `scene`: `COMMANDS_NUS_6BYTE.get(target)` — only a known string
  target selects a payload (pop, break), anything else falls through;
* `led`: equal to `current_state.get('led')` falls through with **no
  pop**; different selects `led_toggle`, pops and breaks;
* `timer_target`: always selects `timer_cycle`, pops and breaks;
* unknown attributes fall through.

Truthiness of the walrus assignments is the non-emptiness test on the
payload (all table payloads are non-empty). -/
def loopEntries (snap : Option StatusSnapshot) :
    List (String × Value) → List (String × Value) → List (List Nat) → LoopResult
  | [], ts, ems => ⟨Option.none, ts, ems, Option.none⟩
  | (attr, target) :: rest, ts, ems =>
    if strEndsWith attr "_position" then
      match pyToInt (snapGet snap attr), pyToInt target with
      | some c, some t =>
        if (c - t).natAbs < MIN_STEP then
          loopEntries snap rest (popKey ts attr) (ems ++ [stopPayload])
        else
          let key := if attr = "head_position" then
              some (if c < t then "head_up" else "head_down")
            else if attr = "foot_position" then
              some (if c < t then "foot_up" else "foot_down")
            else Option.none
          match key with
          | some k =>
            match COMMANDS_NUS_6BYTE k with
            | some p =>
              if p.isEmpty then loopEntries snap rest ts ems
              else ⟨some p, ts, ems, Option.none⟩
            | Option.none => loopEntries snap rest ts ems
          | Option.none => loopEntries snap rest ts ems
      | _, _ => ⟨Option.none, ts, ems, some errTypeSub⟩
    else if attr = "head_massage" ∨ attr = "foot_massage" then
      if pyEq target (Value.int 0) then
        loopEntries snap rest (popKey ts attr) ems
      else
        match COMMANDS_NUS_6BYTE attr with
        | some p =>
          if p.isEmpty then loopEntries snap rest ts ems
          else ⟨some p, popKey ts attr, ems, Option.none⟩
        | Option.none => loopEntries snap rest ts ems
    else if attr = "scene" then
      match target with
      | Value.str sc =>
        match COMMANDS_NUS_6BYTE sc with
        | some p =>
          if p.isEmpty then loopEntries snap rest ts ems
          else ⟨some p, popKey ts attr, ems, Option.none⟩
        | Option.none => loopEntries snap rest ts ems
      | _ => loopEntries snap rest ts ems
    else if attr = "led" then
      if pyEq (snapGet snap "led") target then
        loopEntries snap rest ts ems
      else
        match COMMANDS_NUS_6BYTE "led_toggle" with
        | some p =>
          if p.isEmpty then loopEntries snap rest ts ems
          else ⟨some p, popKey ts attr, ems, Option.none⟩
        | Option.none => loopEntries snap rest ts ems
    else if attr = "timer_target" then
      match COMMANDS_NUS_6BYTE "timer_cycle" with
      | some p =>
        if p.isEmpty then loopEntries snap rest ts ems
        else ⟨some p, popKey ts attr, ems, Option.none⟩
      | Option.none => loopEntries snap rest ts ems
    else loopEntries snap rest ts ems

/-- `Device.send_command` (device.py lines 233-311): the `stop` sentinel
short-circuit, the scanning loop, the final emission of
`command_to_send`, and the defensive `stop` when no command was selected
but the live `target_state` is empty and the last snapshot reports
motion. -/
def sendCommand (snap : Option StatusSnapshot) (ts : List (String × Value)) :
    SendResult :=
  if ts.any (fun p => p.1 == "stop") then
    ⟨[stopPayload], [], Option.none⟩
  else
    let r := loopEntries snap ts ts []
    match r.err with
    | some e => ⟨r.sends, r.target, some e⟩
    | Option.none =>
      match r.cmd with
      | some p => ⟨r.sends ++ [p], r.target, Option.none⟩
      | Option.none =>
        if r.target.isEmpty &&
            (pyTruthy (snapGet snap "head_move")
              || pyTruthy (snapGet snap "foot_move")) then
          ⟨r.sends ++ [stopPayload], r.target, Option.none⟩
        else ⟨r.sends, r.target, Option.none⟩

/-- `AttributeError` raised by `self.client.connected` in
`Device.set_attribute`: the `Client` class defines no attribute
`connected` (device.py line 228, client.py). -/
def errClientConnected : String :=
  "AttributeError: Client has no attribute connected"

/-- `AttributeError` raised by `self.client.request_status()` in
`Device.on_data`: the `Client` class defines no method `request_status`
(device.py line 126, client.py). -/
def errRequestStatus : String :=
  "AttributeError: Client has no attribute request_status"

/-- `AttributeError` raised by `self.client.ping()` when `self.client`
is `None` (device constructed without a BLE device). -/
def errNonePing : String :=
  "AttributeError: NoneType has no attribute ping"

/-- The state of `Device` relevant to the embedded methods
(`Device.__init__`, device.py lines 60-75): `connected` starts `False`,
`current_data`/`current_state` start `None`/`{}`, `target_state` starts
`{}`; `client_is_some` records whether a BLE device (hence a `Client`)
was supplied. -/
structure Device where
  connected : Bool
  client_is_some : Bool
  current_data : Option (List Nat)
  current_state : Option StatusSnapshot
  target_state : List (String × Value)
deriving Repr, DecidableEq

/-- `Device.__init__`: the freshly constructed device state. -/
def Device.mkInit (client_is_some : Bool) : Device :=
  ⟨false, client_is_some, Option.none, Option.none, []⟩

/-- The frame-acceptance part of `Device.on_data` (lines 100-117)
together with the state writes of `parse_data`: a frame byte-identical
to `current_data` is skipped, an accepted new frame replaces
`current_data` and `current_state` wholesale, a rejected frame changes
nothing. -/
def acceptFrame (d : Device) (data : List Nat) : Device :=
  if d.current_data = some data then d
  else if frameAccepted data then
    { d with current_data := some data
             current_state := some (snapshotOf data) }
  else d

/-- `Device.on_data` on a bytes payload (lines 100-126): the acceptance
logic, then — with a non-empty `target_state` — `send_command`, else the
idle branch `self.client.request_status()`, which raises
`AttributeError` because `Client` defines no such method (and `None` has
none either when the client is absent).  Returns the final device
state, the `client.send` payloads, and the raised exception if any. -/
def onData (d : Device) (data : List Nat) :
    Device × List (List Nat) × Option String :=
  let d1 := acceptFrame d data
  if d1.target_state.isEmpty then
    (d1, [], some errRequestStatus)
  else
    let r := sendCommand d1.current_state d1.target_state
    ({ d1 with target_state := r.target }, r.sends, r.err)

/-- `Device.set_attribute` (device.py lines 222-231): store the target
entry, then evaluate `self.client and self.client.connected` — which
raises `AttributeError` whenever a client is present, because `Client`
defines no attribute `connected`; with no client, the subsequent
`self.client.ping()` raises on `None` instead.  The entry stored before
the raise is kept, as in Python. -/
def setAttribute (d : Device) (name : String) (v : Value) :
    Device × List (List Nat) × Option String :=
  let d1 := { d with target_state := setKey d.target_state name v }
  if d1.client_is_some then
    (d1, [], some errClientConnected)
  else
    (d1, [], some errNonePing)

/-- State of `Client` relevant to `send`/`_send_coro` (client.py lines
125-141): connectivity (`self.client and self.client.is_connected`),
whether a send task is in flight (`self.send_task`), the shared
`self.send_data` buffer, and the log of `write_gatt_char` payloads. -/
structure ClientS where
  is_connected : Bool
  send_task : Bool
  send_data : Option (List Nat)
  written : List (List Nat)
deriving Repr, DecidableEq

/-- One cooperative scheduling step of the client: a synchronous
`send(p)` call, or the scheduler running a pending `_send_coro` to
completion. -/
inductive CEvent where
  | send : List Nat → CEvent
  | runSendTask : CEvent
deriving Repr, DecidableEq

/-- `Client.send` and `_send_coro` as a step function.  `send(p)` first
does `self.send_data = data` unconditionally, then spawns a task only if
connected and none is in flight; the spawned `_send_coro`, when the
scheduler runs it, writes the **current** `self.send_data` and clears
`self.send_task`. -/
def cstep : ClientS → CEvent → ClientS
  | s, CEvent.send p =>
    let s1 := { s with send_data := some p }
    if s1.is_connected && !s1.send_task then { s1 with send_task := true }
    else s1
  | s, CEvent.runSendTask =>
    if s.send_task then
      { s with written := s.written ++ [s.send_data.getD []]
               send_task := false }
    else s

/-- Run a sequence of client events from a state. -/
def crun (s : ClientS) (es : List CEvent) : ClientS := es.foldl cstep s

/-- The continuous-movement command payloads the engine can emit. -/
def motorPayloads : List (List Nat) :=
  [headUpPayload, headDownPayload, footUpPayload, footDownPayload]

/-- Formalization of the claim that every motor command emitted by
`send_command` is immediately followed by a further transmission (the
claimed `request_status`): a necessary condition of the claim. -/
def motorFollowedByStatus (sends : List (List Nat)) : Prop :=
  ∀ i p, sends.get? i = some p → p ∈ motorPayloads →
    (sends.get? (i + 1)).isSome = true

/-- A 16-byte all-zero-payload frame with header `0xED` (accepted). -/
def sampleFrameED : List Nat := 0xED :: List.replicate 15 0

/-- A snapshot whose head position is 500 and everything else is at the
defaults (bed idle, LED off). -/
def snap500 : StatusSnapshot :=
  ⟨500, 0, false, false, 0, 0, Option.none, 0, false, false⟩

/-- A snapshot whose head position is 550, bed idle. -/
def snap550 : StatusSnapshot :=
  ⟨550, 0, false, false, 0, 0, Option.none, 0, false, false⟩

/-- A snapshot with the LED on, everything else default. -/
def snapLedOn : StatusSnapshot :=
  ⟨0, 0, false, false, 0, 0, Option.none, 0, true, false⟩

/-! ### Helper lemmas about one scanning step of `send_command` -/

lemma loop_head_reached (s : StatusSnapshot) (t : Int)
    (rest ts : List (String × Value)) (ems : List (List Nat))
    (h : (((s.head_position : Int)) - t).natAbs < MIN_STEP) :
    loopEntries (some s) (("head_position", Value.int t) :: rest) ts ems
      = loopEntries (some s) rest (popKey ts "head_position") (ems ++ [stopPayload]) := by
  have e : loopEntries (some s) (("head_position", Value.int t) :: rest) ts ems
      = if (((s.head_position : Int)) - t).natAbs < MIN_STEP then
          loopEntries (some s) rest (popKey ts "head_position") (ems ++ [stopPayload])
        else
          match COMMANDS_NUS_6BYTE
              (if ((s.head_position : Int)) < t then "head_up" else "head_down") with
          | some p =>
            if p.isEmpty then loopEntries (some s) rest ts ems
            else ⟨some p, ts, ems, Option.none⟩
          | Option.none => loopEntries (some s) rest ts ems := rfl
  rw [e, if_pos h]

lemma loop_head_notReached (s : StatusSnapshot) (t : Int)
    (rest ts : List (String × Value)) (ems : List (List Nat))
    (h : ¬ (((s.head_position : Int)) - t).natAbs < MIN_STEP) :
    loopEntries (some s) (("head_position", Value.int t) :: rest) ts ems
      = ⟨some (if ((s.head_position : Int)) < t then headUpPayload else headDownPayload),
          ts, ems, Option.none⟩ := by
  have e : loopEntries (some s) (("head_position", Value.int t) :: rest) ts ems
      = if (((s.head_position : Int)) - t).natAbs < MIN_STEP then
          loopEntries (some s) rest (popKey ts "head_position") (ems ++ [stopPayload])
        else
          match COMMANDS_NUS_6BYTE
              (if ((s.head_position : Int)) < t then "head_up" else "head_down") with
          | some p =>
            if p.isEmpty then loopEntries (some s) rest ts ems
            else ⟨some p, ts, ems, Option.none⟩
          | Option.none => loopEntries (some s) rest ts ems := rfl
  rw [e, if_neg h]
  by_cases hlt : ((s.head_position : Int)) < t
  · rw [if_pos hlt, if_pos hlt]; rfl
  · rw [if_neg hlt, if_neg hlt]; rfl

lemma loop_foot_reached (s : StatusSnapshot) (t : Int)
    (rest ts : List (String × Value)) (ems : List (List Nat))
    (h : (((s.foot_position : Int)) - t).natAbs < MIN_STEP) :
    loopEntries (some s) (("foot_position", Value.int t) :: rest) ts ems
      = loopEntries (some s) rest (popKey ts "foot_position") (ems ++ [stopPayload]) := by
  have e : loopEntries (some s) (("foot_position", Value.int t) :: rest) ts ems
      = if (((s.foot_position : Int)) - t).natAbs < MIN_STEP then
          loopEntries (some s) rest (popKey ts "foot_position") (ems ++ [stopPayload])
        else
          match COMMANDS_NUS_6BYTE
              (if ((s.foot_position : Int)) < t then "foot_up" else "foot_down") with
          | some p =>
            if p.isEmpty then loopEntries (some s) rest ts ems
            else ⟨some p, ts, ems, Option.none⟩
          | Option.none => loopEntries (some s) rest ts ems := rfl
  rw [e, if_pos h]

lemma loop_foot_notReached (s : StatusSnapshot) (t : Int)
    (rest ts : List (String × Value)) (ems : List (List Nat))
    (h : ¬ (((s.foot_position : Int)) - t).natAbs < MIN_STEP) :
    loopEntries (some s) (("foot_position", Value.int t) :: rest) ts ems
      = ⟨some (if ((s.foot_position : Int)) < t then footUpPayload else footDownPayload),
          ts, ems, Option.none⟩ := by
  have e : loopEntries (some s) (("foot_position", Value.int t) :: rest) ts ems
      = if (((s.foot_position : Int)) - t).natAbs < MIN_STEP then
          loopEntries (some s) rest (popKey ts "foot_position") (ems ++ [stopPayload])
        else
          match COMMANDS_NUS_6BYTE
              (if ((s.foot_position : Int)) < t then "foot_up" else "foot_down") with
          | some p =>
            if p.isEmpty then loopEntries (some s) rest ts ems
            else ⟨some p, ts, ems, Option.none⟩
          | Option.none => loopEntries (some s) rest ts ems := rfl
  rw [e, if_neg h]
  by_cases hlt : ((s.foot_position : Int)) < t
  · rw [if_pos hlt, if_pos hlt]; rfl
  · rw [if_neg hlt, if_neg hlt]; rfl

lemma loop_led_equal (s : StatusSnapshot) (v : Value)
    (rest ts : List (String × Value)) (ems : List (List Nat))
    (h : pyEq (snapGet (some s) "led") v = true) :
    loopEntries (some s) (("led", v) :: rest) ts ems
      = loopEntries (some s) rest ts ems := by
  have e : loopEntries (some s) (("led", v) :: rest) ts ems
      = if pyEq (snapGet (some s) "led") v = true then
          loopEntries (some s) rest ts ems
        else ⟨some ledTogglePayload, popKey ts "led", ems, Option.none⟩ := rfl
  rw [e, if_pos h]

lemma loop_led_different (s : StatusSnapshot) (v : Value)
    (rest ts : List (String × Value)) (ems : List (List Nat))
    (h : pyEq (snapGet (some s) "led") v = false) :
    loopEntries (some s) (("led", v) :: rest) ts ems
      = ⟨some ledTogglePayload, popKey ts "led", ems, Option.none⟩ := by
  have e : loopEntries (some s) (("led", v) :: rest) ts ems
      = if pyEq (snapGet (some s) "led") v = true then
          loopEntries (some s) rest ts ems
        else ⟨some ledTogglePayload, popKey ts "led", ems, Option.none⟩ := rfl
  rw [e, if_neg (by simp [h])]

lemma sendCommand_break (snap : Option StatusSnapshot) (ts : List (String × Value))
    (p : List Nat) (tgt : List (String × Value)) (sends : List (List Nat))
    (hstop : ts.any (fun q => q.1 == "stop") = false)
    (hloop : loopEntries snap ts ts [] = ⟨some p, tgt, sends, Option.none⟩) :
    sendCommand snap ts = ⟨sends ++ [p], tgt, Option.none⟩ := by
  simp [sendCommand, hstop, hloop]

lemma sendCommand_noBreak (snap : Option StatusSnapshot) (ts : List (String × Value))
    (tgt : List (String × Value)) (sends : List (List Nat))
    (hstop : ts.any (fun q => q.1 == "stop") = false)
    (hloop : loopEntries snap ts ts [] = ⟨Option.none, tgt, sends, Option.none⟩) :
    sendCommand snap ts
      = if tgt.isEmpty && (pyTruthy (snapGet snap "head_move")
            || pyTruthy (snapGet snap "foot_move")) then
          ⟨sends ++ [stopPayload], tgt, Option.none⟩
        else ⟨sends, tgt, Option.none⟩ := by
  simp only [sendCommand, hstop, hloop, Bool.false_eq_true, if_false]

/-! ### Claim theorems -/

/-- C1: whenever the key `stop` occurs in `target_state` (whatever its
value and whatever other entries are pending), one `send_command` call
clears `target_state` entirely and emits exactly the single `stop`
command, nothing else. -/
theorem c1_stop_sentinel (snap : Option StatusSnapshot)
    (ts : List (String × Value))
    (h : ts.any (fun p => p.1 == "stop") = true) :
    sendCommand snap ts = ⟨[stopPayload], [], Option.none⟩ := by
  simp [sendCommand, h]

/-- C1 witness: `target_state = [head_position ↦ 900, stop ↦ True]`
clears everything and emits exactly the stop command, never `head_up`. -/
theorem c1_stop_sentinel_witness :
    ([("head_position", Value.int 900), ("stop", Value.bool true)].any
        (fun p => p.1 == "stop")) = true
  ∧ sendCommand (some snap500)
        [("head_position", Value.int 900), ("stop", Value.bool true)]
      = ⟨[stopPayload], [], Option.none⟩ :=
  ⟨by decide, c1_stop_sentinel (some snap500) _ (by decide)⟩

/-- C2: a pending `head_position`/`foot_position` entry with current
value `c` and integer target `t` is handled as follows: within
tolerance (`|c − t| < MIN_STEP`) the engine sends `stop`, removes the
entry and continues scanning the remaining entries in the same call;
otherwise it selects `*_up` when `c < t` and `*_down` when `c ≥ t`,
stops scanning and leaves the entry pending.  In particular `c = 500`,
`t = 600` emits `head_up` and keeps the entry, while `c = 550`,
`t = 600` (bed idle) sends `stop` and removes it. -/
theorem c2_continuous_policy (s : StatusSnapshot) (t : Int)
    (rest ts : List (String × Value)) (ems : List (List Nat)) :
    ((((s.head_position : Int)) - t).natAbs < MIN_STEP →
      loopEntries (some s) (("head_position", Value.int t) :: rest) ts ems
        = loopEntries (some s) rest (popKey ts "head_position") (ems ++ [stopPayload]))
  ∧ (¬ (((s.head_position : Int)) - t).natAbs < MIN_STEP →
      loopEntries (some s) (("head_position", Value.int t) :: rest) ts ems
        = ⟨some (if ((s.head_position : Int)) < t then headUpPayload else headDownPayload),
            ts, ems, Option.none⟩)
  ∧ ((((s.foot_position : Int)) - t).natAbs < MIN_STEP →
      loopEntries (some s) (("foot_position", Value.int t) :: rest) ts ems
        = loopEntries (some s) rest (popKey ts "foot_position") (ems ++ [stopPayload]))
  ∧ (¬ (((s.foot_position : Int)) - t).natAbs < MIN_STEP →
      loopEntries (some s) (("foot_position", Value.int t) :: rest) ts ems
        = ⟨some (if ((s.foot_position : Int)) < t then footUpPayload else footDownPayload),
            ts, ems, Option.none⟩)
  ∧ (s.head_position = 500 → t = 600 →
      sendCommand (some s) [("head_position", Value.int t)]
        = ⟨[headUpPayload], [("head_position", Value.int t)], Option.none⟩)
  ∧ (s.head_position = 550 → t = 600 → s.head_move = false → s.foot_move = false →
      sendCommand (some s) [("head_position", Value.int t)]
        = ⟨[stopPayload], [], Option.none⟩) := by
  refine ⟨loop_head_reached s t rest ts ems, loop_head_notReached s t rest ts ems,
    loop_foot_reached s t rest ts ems, loop_foot_notReached s t rest ts ems, ?_, ?_⟩
  · intro h5 h6
    subst h6
    have hn : ¬ (((s.head_position : Int)) - 600).natAbs < MIN_STEP := by
      rw [h5]; decide
    have hl := loop_head_notReached s 600 [] [("head_position", Value.int 600)] [] hn
    rw [h5] at hl
    rw [if_pos (by decide : ((500 : Nat) : Int) < 600)] at hl
    rw [sendCommand_break (some s) _ headUpPayload _ [] (by decide) hl]
    rfl
  · intro h5 h6 h7 h8
    subst h6
    have hr : (((s.head_position : Int)) - 600).natAbs < MIN_STEP := by
      rw [h5]; decide
    have hl := loop_head_reached s 600 [] [("head_position", Value.int 600)] [] hr
    have hl2 : loopEntries (some s) [("head_position", Value.int 600)]
        [("head_position", Value.int 600)] []
        = ⟨Option.none, [], [stopPayload], Option.none⟩ := by
      rw [hl]; rfl
    rw [sendCommand_noBreak (some s) _ [] [stopPayload] (by decide) hl2]
    have e1 : pyTruthy (snapGet (some s) "head_move") = s.head_move := rfl
    have e2 : pyTruthy (snapGet (some s) "foot_move") = s.foot_move := rfl
    rw [e1, e2, h7, h8]
    rfl

/-- C2 witness: both concrete cases from the claim, obtained by applying
the theorem at `snap500` and `snap550`. -/
theorem c2_continuous_policy_witness :
    sendCommand (some snap500) [("head_position", Value.int 600)]
      = ⟨[headUpPayload], [("head_position", Value.int 600)], Option.none⟩
  ∧ sendCommand (some snap550) [("head_position", Value.int 600)]
      = ⟨[stopPayload], [], Option.none⟩ :=
  ⟨(c2_continuous_policy snap500 600 [] [] []).2.2.2.2.1 rfl rfl,
   (c2_continuous_policy snap550 600 [] [] []).2.2.2.2.2 rfl rfl rfl rfl⟩

/-- C4 counterexample: with the LED currently on and a pending entry
`led ↦ True` (target equal to the current state), `send_command` emits
no command but the entry is NOT removed from `target_state` — it stays
pending, contradicting the claim that an already-satisfied LED entry is
removed. -/
theorem c4_counterexample :
    sendCommand (some snapLedOn) [("led", Value.bool true)]
      = ⟨[], [("led", Value.bool true)], Option.none⟩
  ∧ ("led", Value.bool true)
      ∈ (sendCommand (some snapLedOn) [("led", Value.bool true)]).target := by
  constructor
  · decide
  · decide

/-- C4 amended: for a pending `led` entry, if the target compares equal
to `current_state.get('led')` the engine emits no command for it and
continues scanning, but the entry REMAINS in `target_state` (it is not
removed); if they differ it emits `led_toggle` and removes the entry
(stopping the scan).  In particular `set led = False` with the LED on
emits `led_toggle` and removes the entry. -/
theorem c4_led_policy (s : StatusSnapshot) (v : Value)
    (rest ts : List (String × Value)) (ems : List (List Nat)) :
    (pyEq (snapGet (some s) "led") v = true →
      loopEntries (some s) (("led", v) :: rest) ts ems
        = loopEntries (some s) rest ts ems)
  ∧ (pyEq (snapGet (some s) "led") v = false →
      loopEntries (some s) (("led", v) :: rest) ts ems
        = ⟨some ledTogglePayload, popKey ts "led", ems, Option.none⟩)
  ∧ (s.led = true → v = Value.bool false →
      sendCommand (some s) [("led", v)]
        = ⟨[ledTogglePayload], [], Option.none⟩) := by
  refine ⟨loop_led_equal s v rest ts ems, loop_led_different s v rest ts ems, ?_⟩
  intro h1 h2
  subst h2
  have hne : pyEq (snapGet (some s) "led") (Value.bool false) = false := by
    have e : snapGet (some s) "led" = Value.bool s.led := rfl
    rw [e, h1]; rfl
  have hl := loop_led_different s (Value.bool false) [] [("led", Value.bool false)] [] hne
  rw [sendCommand_break (some s) _ ledTogglePayload _ [] (by decide) (by rw [hl])]
  decide

/-- C4 witness: the amended behavior at a concrete snapshot with the
LED on — equal target falls through without removal, different target
toggles. -/
theorem c4_led_policy_witness :
    loopEntries (some snapLedOn) [("led", Value.bool true)]
        [("led", Value.bool true)] []
      = loopEntries (some snapLedOn) [] [("led", Value.bool true)] []
  ∧ sendCommand (some snapLedOn) [("led", Value.bool false)]
      = ⟨[ledTogglePayload], [], Option.none⟩ :=
  ⟨(c4_led_policy snapLedOn (Value.bool true) [] [("led", Value.bool true)] []).1
      (by decide),
   (c4_led_policy snapLedOn (Value.bool false) [] [] []).2.2 rfl rfl⟩

/-- C10: in the fixed command table the payload of `stop` is
byte-identical to the payload of the `flat` scene preset, and the
`stopPayload` the engine transmits at every stop site is exactly those
flat-preset bytes `04 02 08 00 00 00`. -/
theorem c10_stop_is_flat :
    COMMANDS_NUS_6BYTE "stop" = COMMANDS_NUS_6BYTE "flat"
  ∧ COMMANDS_NUS_6BYTE "stop" = some [0x04, 0x02, 0x08, 0x00, 0x00, 0x00]
  ∧ stopPayload = [0x04, 0x02, 0x08, 0x00, 0x00, 0x00] := by
  refine ⟨rfl, rfl, rfl⟩

/-- Every `client.send` performed inside the scanning loop is either
inherited from the accumulator or is the `stop` payload (the only send
site inside the loop body is the tolerance-reached `stop`). -/
lemma loopEntries_sends_subset (snap : Option StatusSnapshot) :
    ∀ (entries ts : List (String × Value)) (ems : List (List Nat)) (p : List Nat),
      p ∈ (loopEntries snap entries ts ems).sends → p ∈ ems ∨ p = stopPayload := by
  intro entries
  induction entries with
  | nil => intro ts ems p hp; exact Or.inl hp
  | cons hd rest ih =>
    intro ts ems p hp
    obtain ⟨attr, target⟩ := hd
    simp only [loopEntries] at hp
    repeat' split at hp
    all_goals first
      | exact Or.inl hp
      | exact ih _ _ _ hp
      | { rcases ih _ _ _ hp with h | h
          · rcases List.mem_append.mp h with h1 | h1
            · exact Or.inl h1
            · exact Or.inr (by simpa using h1)
          · exact Or.inr h }

/-- C3 counterexample: for `head_position` target 600 at current 500,
`send_command` emits the single motor command `head_up` and the call
ends there — no transmission at all follows it, in particular no
`request_status` (no such call exists in `send_command`, and `Client`
defines no `request_status` method). -/
theorem c3_counterexample :
    (sendCommand (some snap500) [("head_position", Value.int 600)]).sends
      = [headUpPayload]
  ∧ headUpPayload ∈ motorPayloads
  ∧ ¬ motorFollowedByStatus [headUpPayload] := by
  refine ⟨by decide, by decide, fun h => ?_⟩
  have h0 := h 0 headUpPayload rfl (by decide)
  simp at h0

/-- C3 amended: a motor command emitted by `send_command` is always the
LAST transmission of that call — `send_command` never follows a motor
command with any further send (the `request_status` described by the
spec does not exist in the code). -/
theorem c3_motor_command_is_last (snap : Option StatusSnapshot)
    (ts : List (String × Value)) (p : List Nat)
    (hm : p ∈ motorPayloads)
    (hp : p ∈ (sendCommand snap ts).sends) :
    (sendCommand snap ts).sends.getLast? = some p := by
  have hm' : p = headUpPayload ∨ p = headDownPayload
      ∨ p = footUpPayload ∨ p = footDownPayload := by
    simpa [motorPayloads] using hm
  have hne : p ≠ stopPayload := by
    rcases hm' with rfl | rfl | rfl | rfl <;> decide
  by_cases hstop : ts.any (fun q => q.1 == "stop") = true
  · rw [show sendCommand snap ts = ⟨[stopPayload], [], Option.none⟩ from by
      simp [sendCommand, hstop]] at hp
    exact absurd (by simpa using hp) hne
  · have hstop' : ts.any (fun q => q.1 == "stop") = false := by
      revert hstop
      cases ts.any (fun q => q.1 == "stop") <;> simp
    have hsub : ∀ q ∈ (loopEntries snap ts ts []).sends, q = stopPayload := by
      intro q hq
      rcases loopEntries_sends_subset snap ts ts [] q hq with h | h
      · exact absurd h (List.not_mem_nil q)
      · exact h
    rcases hL : loopEntries snap ts ts [] with ⟨cmd, tgt, sends, err⟩
    rw [hL] at hsub
    simp only at hsub
    cases err with
    | some e =>
      rw [show sendCommand snap ts = ⟨sends, tgt, some e⟩ from by
        simp [sendCommand, hstop', hL]] at hp
      exact absurd (hsub p hp) hne
    | none =>
      cases cmd with
      | some q =>
        rw [sendCommand_break snap ts q tgt sends hstop' hL] at hp ⊢
        simp only [List.getLast?_concat]
        rcases List.mem_append.mp hp with h1 | h1
        · exact absurd (hsub p h1) hne
        · simp at h1
          rw [h1]
      | none =>
        rw [sendCommand_noBreak snap ts tgt sends hstop' hL] at hp ⊢
        by_cases hdef : (tgt.isEmpty && (pyTruthy (snapGet snap "head_move")
            || pyTruthy (snapGet snap "foot_move"))) = true
        · rw [if_pos hdef] at hp
          simp only at hp
          rcases List.mem_append.mp hp with h1 | h1
          · exact absurd (hsub p h1) hne
          · exact absurd (by simpa using h1) hne
        · rw [if_neg hdef] at hp
          simp only at hp
          exact absurd (hsub p hp) hne

/-- C3 amended witness: at the concrete head-up scenario the emitted
motor command is the last (and only) transmission of the call. -/
theorem c3_motor_command_is_last_witness :
    headUpPayload ∈ motorPayloads
  ∧ headUpPayload ∈ (sendCommand (some snap500) [("head_position", Value.int 600)]).sends
  ∧ (sendCommand (some snap500) [("head_position", Value.int 600)]).sends.getLast?
      = some headUpPayload :=
  ⟨by decide, by decide,
    c3_motor_command_is_last (some snap500) [("head_position", Value.int 600)]
      headUpPayload (by decide) (by decide)⟩

/-- C5 counterexample: before any frame has been accepted the freshly
constructed device does NOT hold an all-zero/false default snapshot —
`current_state` is the empty dict (`none`), so no field exists at all
(reads via `.get` yield `None`, not 0/False). -/
theorem c5_counterexample :
    (Device.mkInit true).current_state
      ≠ some ⟨0, 0, false, false, 0, 0, Option.none, 0, false, false⟩ := by
  decide

/-- C5 amended: before any frame arrives `current_state` is the empty
mapping (no init defaults), and after any accepted (and non-duplicate)
frame every snapshot field is derived solely from that frame —
`snapshotOf data` is a function of the frame alone, so nothing is
carried over from the previous snapshot. -/
theorem c5_snapshot_freshness (b : Bool) (d : Device) (data : List Nat)
    (hacc : frameAccepted data = true)
    (hdup : d.current_data ≠ some data) :
    (Device.mkInit b).current_state = Option.none
  ∧ (acceptFrame d data).current_state = some (snapshotOf data) := by
  refine ⟨rfl, ?_⟩
  simp only [acceptFrame]
  rw [if_neg hdup, if_pos hacc]

/-- C5 witness: the amended statement applied to a fresh device and a
concrete accepted 16-byte `0xED` frame. -/
theorem c5_snapshot_freshness_witness :
    frameAccepted sampleFrameED = true
  ∧ (Device.mkInit true).current_data ≠ some sampleFrameED
  ∧ (Device.mkInit true).current_state = Option.none
  ∧ (acceptFrame (Device.mkInit true) sampleFrameED).current_state
      = some (snapshotOf sampleFrameED) :=
  ⟨by decide, by decide,
   (c5_snapshot_freshness true (Device.mkInit true) sampleFrameED
      (by decide) (by decide)).1,
   (c5_snapshot_freshness true (Device.mkInit true) sampleFrameED
      (by decide) (by decide)).2⟩

/-- C6: frames failing the acceptance rule (length 15, or header
`0x99`) are rejected without touching `current_state` / `current_data`
— but `on_data` then does NOT return silently: with an empty
`target_state` it reaches the idle branch
`self.client.request_status()`, and `Client` defines no method
`request_status`, so the call raises `AttributeError`, contradicting
the no-error part of the claim. -/
theorem c6_rejected_frame_raises :
    frameAccepted (0x99 :: List.replicate 15 0) = false
  ∧ frameAccepted (0xED :: List.replicate 14 0) = false
  ∧ onData (Device.mkInit true) (0x99 :: List.replicate 15 0)
      = (Device.mkInit true, [], some errRequestStatus)
  ∧ onData (Device.mkInit true) (0xED :: List.replicate 14 0)
      = (Device.mkInit true, [], some errRequestStatus) := by
  refine ⟨by decide, by decide, by decide, by decide⟩

/-- C7: for every accepted frame the decoded snapshot satisfies the
spec field formulas — positions are the little-endian u16 of
`data2[0:2]` / `data2[2:4]` with raw `0xFFFF` normalized to 0, the
movement flag is `data2[4] & 0xF` when `data2` has ≥ 5 bytes and the
header is not `0xF1` (else `0xF`), flag `0xF` forces both move booleans
to false, the massage percentages are `data1[4] * 100 / 6` and
`data1[5] * 100 / 6` when present (else 0), and for header `0xA5` the
slice `data1` is `data[3:8]`. -/
theorem c7_parse_field_formulas (data : List Nat)
    (h : frameAccepted data = true) :
    (snapshotOf data).head_position
        = (if leU16 ((frameData2 data).take 2) = 0xFFFF then 0
           else leU16 ((frameData2 data).take 2))
  ∧ (snapshotOf data).foot_position
        = (if leU16 (((frameData2 data).drop 2).take 2) = 0xFFFF then 0
           else leU16 (((frameData2 data).drop 2).take 2))
  ∧ (snapshotOf data).head_move
        = decide (moveFlag data ≠ 0xF ∧ 0 < moveFlag data &&& 1)
  ∧ (snapshotOf data).foot_move
        = decide (moveFlag data ≠ 0xF ∧ 0 < moveFlag data &&& 2)
  ∧ (moveFlag data = 0xF →
      (snapshotOf data).head_move = false ∧ (snapshotOf data).foot_move = false)
  ∧ (snapshotOf data).head_massage
        = (if 4 < (frameData1 data).length
           then (frameData1 data).getD 4 0 * 100 / 6 else 0)
  ∧ (snapshotOf data).foot_massage
        = (if 5 < (frameData1 data).length
           then (frameData1 data).getD 5 0 * 100 / 6 else 0)
  ∧ (data.getD 0 0 = 0xA5 → frameData1 data = (data.drop 3).take 5) := by
  refine ⟨rfl, rfl, rfl, rfl, ?_, rfl, rfl, ?_⟩
  · intro hf
    have e1 : (snapshotOf data).head_move
        = decide (moveFlag data ≠ 0xF ∧ 0 < moveFlag data &&& 1) := rfl
    have e2 : (snapshotOf data).foot_move
        = decide (moveFlag data ≠ 0xF ∧ 0 < moveFlag data &&& 2) := rfl
    rw [e1, e2, hf]
    exact ⟨by decide, by decide⟩
  · intro ha
    simp only [frameData1]
    rw [if_pos ha]

/-- C7 witness: the formulas evaluated on the concrete accepted `0xED`
frame. -/
theorem c7_parse_field_formulas_witness :
    frameAccepted sampleFrameED = true
  ∧ (snapshotOf sampleFrameED).head_position
      = (if leU16 ((frameData2 sampleFrameED).take 2) = 0xFFFF then 0
         else leU16 ((frameData2 sampleFrameED).take 2)) :=
  ⟨by decide, (c7_parse_field_formulas sampleFrameED (by decide)).1⟩

/-- C8: `set_attribute` stores the target entry, but then evaluates
`self.client and self.client.connected` — the `Client` class defines no
attribute `connected`, so with a client present the call raises
`AttributeError` before `send_command` and before `ping`; without a
client, `self.client.ping()` raises on `None`.  Either way
`set_attribute` never completes without an error, contradicting the
claim that reconcile runs and the session is extended error-free. -/
theorem c8_set_attribute_raises :
    setAttribute (Device.mkInit true) "led" (Value.bool true)
      = (⟨false, true, Option.none, Option.none, [("led", Value.bool true)]⟩,
          [], some errClientConnected)
  ∧ setAttribute (Device.mkInit false) "led" (Value.bool true)
      = (⟨false, false, Option.none, Option.none, [("led", Value.bool true)]⟩,
          [], some errNonePing) := by
  refine ⟨by decide, by decide⟩

/-- C9 counterexample: from a connected idle client, `send(p1)` starts
the transmission task, a second `send(p2)` while it is in flight is
dropped (no new task) but overwrites the shared `send_data` buffer, so
when the scheduler runs the task the bytes actually written are `p2` —
NOT the payload `p1` of the send call that started the task. -/
theorem c9_counterexample :
    crun ⟨true, false, Option.none, []⟩
        [CEvent.send [1], CEvent.send [2], CEvent.runSendTask]
      = ⟨true, false, some [2], [[2]]⟩
  ∧ [[2]] ≠ ([[1]] : List (List Nat)) := by
  refine ⟨by decide, by decide⟩

/-- C9 amended: at most one transmission is in flight (a `send` starts
a task only when connected and none is pending, and a `send` during
flight starts no new task and queues nothing), but every `send` call —
dropped or not — overwrites `send_data`, and the in-flight task writes
whatever `send_data` holds when it runs, i.e. the most recently
supplied payload rather than necessarily the initiator's. -/
theorem c9_single_flight_policy (s : ClientS) (p : List Nat) :
    (cstep s (CEvent.send p)).send_data = some p
  ∧ (cstep s (CEvent.send p)).written = s.written
  ∧ (cstep s (CEvent.send p)).send_task = (s.send_task || s.is_connected)
  ∧ (s.send_task = true →
      (cstep s CEvent.runSendTask).written = s.written ++ [s.send_data.getD []]) := by
  refine ⟨?_, ?_, ?_, ?_⟩
  · cases hc : s.is_connected <;> cases ht : s.send_task <;>
      simp [cstep, hc, ht]
  · cases hc : s.is_connected <;> cases ht : s.send_task <;>
      simp [cstep, hc, ht]
  · cases hc : s.is_connected <;> cases ht : s.send_task <;>
      simp [cstep, hc, ht]
  · intro ht
    simp [cstep, ht]

/-- C9 amended witness: with a task already in flight carrying buffered
data `[3]`, a further `send [7]` only overwrites the buffer, and running
the task writes the buffered bytes. -/
theorem c9_single_flight_policy_witness :
    (cstep ⟨true, true, some [3], []⟩ (CEvent.send [7])).send_data = some [7]
  ∧ (cstep ⟨true, true, some [3], []⟩ (CEvent.send [7])).send_task = true
  ∧ (cstep ⟨true, true, some [3], []⟩ CEvent.runSendTask).written = [[3]] := by
  have h := c9_single_flight_policy ⟨true, true, some [3], []⟩ [7]
  exact ⟨h.1, h.2.2.1, by rw [h.2.2.2 rfl]; rfl⟩

end Ergomotion
